import Mathlib

/-!
Verification of the `learn_egui` counter demo (`src/main.rs`): a winit + egui +
wgpu application holding a single `i32` counter, a wgpu surface configuration
that is reconfigured on resize, a per-frame render pipeline, and an optional
CJK-font installation step.  Rust structures and functions are shallowly
embedded as Lean structures and pure functions; the `u32` fields are modelled
as `Nat` and the `i32` counter as `Int` with explicit 32-bit signed
wraparound.
-/

namespace LearnEgui

/-! ## Counter (`CounterApp`, src/main.rs lines 19-48) -/

/-- The three counter operations available in `CounterApp::ui`:
the `+1` button, the `-1` button, and the reset button. -/
inductive Op
  | inc
  | dec
  | reset
deriving DecidableEq, Repr

/-- Reduce an integer into the signed 32-bit range `[-2^31, 2^31)`,
modelling Rust `i32` (release-mode) wraparound arithmetic.
`2147483648 = 2^31`, `4294967296 = 2^32`. -/
def wrap32 (x : Int) : Int :=
  (x + 2147483648) % 4294967296 - 2147483648

/-- Application state: `struct CounterApp { count: i32 }` (line 20-22). -/
structure CounterApp where
  count : Int
deriving DecidableEq, Repr

/-- `impl Default for CounterApp` (lines 24-28): the counter starts at 0. -/
def CounterApp.default : CounterApp := { count := 0 }

/-- Effect of one button click on the counter state, from `CounterApp::ui`
(lines 35-43): `-1` does `self.count -= 1`, `+1` does `self.count += 1`,
reset does `self.count = 0`; the `i32` arithmetic wraps. -/
def CounterApp.click (app : CounterApp) : Op → CounterApp
  | Op.inc => { count := wrap32 (app.count + 1) }
  | Op.dec => { count := wrap32 (app.count - 1) }
  | Op.reset => { count := 0 }

/-- The counter value displayed by the label `当前计数: {}` (line 45) after a
sequence of button clicks starting from the default state. -/
def displayedCount (ops : List Op) : Int :=
  (ops.foldl CounterApp.click CounterApp.default).count

/-! ## Graphics state (`GfxState`, src/main.rs lines 50-150) -/

/-- `winit::dpi::PhysicalSize<u32>`. -/
structure PhysicalSize where
  width : Nat
  height : Nat
deriving DecidableEq, Repr

/-- `wgpu::PresentMode` (the variants relevant to the demo). -/
inductive PresentMode
  | AutoVsync
  | AutoNoVsync
  | Fifo
  | FifoRelaxed
  | Immediate
  | Mailbox
deriving DecidableEq, Repr

/-- A fragment of `wgpu::TextureFormat` large enough for the format-selection
logic: sRGB and non-sRGB color formats. -/
inductive TextureFormat
  | Rgba8Unorm
  | Rgba8UnormSrgb
  | Bgra8Unorm
  | Bgra8UnormSrgb
  | Rgba16Float
deriving DecidableEq, Repr

/-- `wgpu::TextureFormat::is_srgb`. -/
def TextureFormat.is_srgb : TextureFormat → Bool
  | TextureFormat.Rgba8UnormSrgb => true
  | TextureFormat.Bgra8UnormSrgb => true
  | _ => false

/-- `wgpu::CompositeAlphaMode`. -/
inductive CompositeAlphaMode
  | Auto
  | Opaque
  | PreMultiplied
  | PostMultiplied
  | Inherit
deriving DecidableEq, Repr

/-- `wgpu::SurfaceCapabilities`: what the adapter/surface pair supports. -/
structure SurfaceCapabilities where
  formats : List TextureFormat
  present_modes : List PresentMode
  alpha_modes : List CompositeAlphaMode
deriving DecidableEq, Repr

/-- `wgpu::TextureUsages` modelled as its bitflag value;
`RENDER_ATTACHMENT = 1 << 4`. -/
def renderAttachment : Nat := 16

/-- `wgpu::SurfaceConfiguration` with the fields set by the demo
(lines 120-129).  `u32` fields are `Nat`. -/
structure SurfaceConfiguration where
  usage : Nat
  format : TextureFormat
  width : Nat
  height : Nat
  present_mode : PresentMode
  alpha_mode : CompositeAlphaMode
  view_formats : List TextureFormat
  desired_maximum_frame_latency : Nat
deriving DecidableEq, Repr

/-- The persistent fields of `struct GfxState` (lines 51-59).  The GPU
handles (`_instance`, `surface`, `device`, `queue`) are opaque external
resources with no observable state in this model; the observable state is
the stored `surface_config` and `size`. -/
structure GfxState where
  surface_config : SurfaceConfiguration
  size : PhysicalSize
deriving DecidableEq, Repr

/-- `GfxState::resize` (lines 142-149): if both dimensions of `new_size` are
positive, store `new_size` and overwrite the configuration width/height, then
rebind the surface (`surface.configure`, an external effect); otherwise do
nothing. -/
def GfxState.resize (s : GfxState) (new_size : PhysicalSize) : GfxState :=
  if 0 < new_size.width ∧ 0 < new_size.height then
    { s with
      size := new_size
      surface_config :=
        { s.surface_config with
          width := new_size.width
          height := new_size.height } }
  else
    s

/-- Surface-format selection (lines 99-104):
`formats.iter().copied().find(|f| f.is_srgb()).unwrap_or(formats[0])`.
Rust evaluates `formats[0]` eagerly, so an empty format list panics
(modelled by `none`) even before the search result is consulted. -/
def choose_surface_format (formats : List TextureFormat) : Option TextureFormat :=
  match formats.head? with
  | none => none
  | some f0 => some ((formats.find? (fun f => f.is_srgb)).getD f0)

/-- Present-mode selection (lines 106-118): `Mailbox` if contained in
`present_modes`, else `Fifo` if contained, else `present_modes[0]`
(a panic on an empty list, modelled by `none`). -/
def choose_present_mode (present_modes : List PresentMode) : Option PresentMode :=
  if present_modes.contains PresentMode.Mailbox then
    some PresentMode.Mailbox
  else if present_modes.contains PresentMode.Fifo then
    some PresentMode.Fifo
  else
    present_modes.head?

/-- `GfxState::new` (lines 62-140), restricted to its pure content: from the
window's inner size and the surface capabilities, build the stored
configuration.  Width and height are clamped to at least 1
(`size.width.max(1)`, line 123-124); the `size` field stores the inner size
unclamped (line 138).  The `expect` calls on adapter/device acquisition and
the indexing panics on empty capability lists are modelled by `none`. -/
def GfxState.new (size : PhysicalSize) (caps : SurfaceCapabilities) :
    Option GfxState :=
  match choose_surface_format caps.formats with
  | none => none
  | some surface_format =>
    match choose_present_mode caps.present_modes with
    | none => none
    | some present_mode =>
      match caps.alpha_modes.head? with
      | none => none
      | some alpha0 =>
        some
          { surface_config :=
              { usage := renderAttachment
                format := surface_format
                width := max size.width 1
                height := max size.height 1
                present_mode := present_mode
                alpha_mode := alpha0
                view_formats := []
                desired_maximum_frame_latency := 2 }
            size := size }

/-- A concrete surface configuration used by witnesses (the startup
configuration for a 900×600 window with a BGRA sRGB swapchain). -/
def exampleConfig : SurfaceConfiguration :=
  { usage := renderAttachment
    format := TextureFormat.Bgra8UnormSrgb
    width := 900
    height := 600
    present_mode := PresentMode.Fifo
    alpha_mode := CompositeAlphaMode.Opaque
    view_formats := []
    desired_maximum_frame_latency := 2 }

/-- A concrete graphics state used by witnesses. -/
def exampleState : GfxState :=
  { surface_config := exampleConfig
    size := { width := 900, height := 600 } }

/-! ## Claims C2, C3, C10: `GfxState::resize` -/

/-- C2: a resize request with a zero width or zero height is a no-op — the
stored configuration (all fields) and the stored size are unchanged. -/
theorem resize_zero_is_noop (s : GfxState) (new_size : PhysicalSize)
    (h : new_size.width = 0 ∨ new_size.height = 0) :
    s.resize new_size = s := by
  unfold GfxState.resize
  rcases h with h | h <;> simp [h]

/-- Witness for C2: resizing the 900×600 example state to 0×400 leaves it
exactly as it was. -/
theorem resize_zero_is_noop_witness :
    exampleState.resize { width := 0, height := 400 } = exampleState :=
  resize_zero_is_noop exampleState { width := 0, height := 400 } (Or.inl rfl)

/-- C3: a resize request with positive width and height updates the stored
configuration's width and height to exactly the requested values. -/
theorem resize_positive_sets_config (s : GfxState) (new_size : PhysicalSize)
    (hw : 0 < new_size.width) (hh : 0 < new_size.height) :
    (s.resize new_size).surface_config.width = new_size.width ∧
      (s.resize new_size).surface_config.height = new_size.height := by
  unfold GfxState.resize
  simp [hw, hh]

/-- Witness for C3: resizing the example state to 800×500 stores width 800
and height 500 in the configuration. -/
theorem resize_positive_sets_config_witness :
    (exampleState.resize { width := 800, height := 500 }).surface_config.width = 800 ∧
      (exampleState.resize { width := 800, height := 500 }).surface_config.height = 500 :=
  resize_positive_sets_config exampleState { width := 800, height := 500 }
    (by decide) (by decide)

/-- C10: a resize with positive dimensions changes only the stored size and
the configuration's width and height; usage, format, present_mode,
alpha_mode, view_formats and desired_maximum_frame_latency are untouched. -/
theorem resize_positive_preserves_other_fields (s : GfxState)
    (new_size : PhysicalSize)
    (hw : 0 < new_size.width) (hh : 0 < new_size.height) :
    (s.resize new_size).surface_config.usage = s.surface_config.usage ∧
      (s.resize new_size).surface_config.format = s.surface_config.format ∧
      (s.resize new_size).surface_config.present_mode = s.surface_config.present_mode ∧
      (s.resize new_size).surface_config.alpha_mode = s.surface_config.alpha_mode ∧
      (s.resize new_size).surface_config.view_formats = s.surface_config.view_formats ∧
      (s.resize new_size).surface_config.desired_maximum_frame_latency =
        s.surface_config.desired_maximum_frame_latency := by
  unfold GfxState.resize
  simp [hw, hh]

/-- Witness for C10: resizing the example state to 800×500 keeps every
non-dimension configuration field. -/
theorem resize_positive_preserves_other_fields_witness :
    (exampleState.resize { width := 800, height := 500 }).surface_config.format =
      exampleState.surface_config.format ∧
      (exampleState.resize { width := 800, height := 500 }).surface_config.present_mode =
        exampleState.surface_config.present_mode :=
  ⟨(resize_positive_preserves_other_fields exampleState { width := 800, height := 500 }
      (by decide) (by decide)).2.1,
    (resize_positive_preserves_other_fields exampleState { width := 800, height := 500 }
      (by decide) (by decide)).2.2.1⟩

/-! ## Claims C6, C7: startup selection policies -/

/-- C6: the present mode chosen at initialization follows the preference
order Mailbox, then Fifo, then the first available mode. -/
theorem present_mode_preference (present_modes : List PresentMode) :
    choose_present_mode present_modes =
      if PresentMode.Mailbox ∈ present_modes then some PresentMode.Mailbox
      else if PresentMode.Fifo ∈ present_modes then some PresentMode.Fifo
      else present_modes.head? := by
  simp [choose_present_mode, List.elem_iff]

/-- C7: the surface format chosen at initialization is the first
sRGB-capable format when one exists (`List.find?` returns the first element
satisfying the predicate), and otherwise the first format in the list. -/
theorem surface_format_preference (formats : List TextureFormat)
    (h : formats ≠ []) :
    (formats.any (fun f => f.is_srgb) = true →
        choose_surface_format formats = formats.find? (fun f => f.is_srgb)) ∧
      (formats.any (fun f => f.is_srgb) = false →
        choose_surface_format formats = formats.head?) := by
  constructor
  · intro hsome
    rcases List.any_eq_true.mp hsome with ⟨f, hf, hsrgb⟩
    rcases formats with _ | ⟨f0, rest⟩
    · cases hf
    · have : ∃ g, (f0 :: rest).find? (fun x => x.is_srgb) = some g := by
        rcases hfind : (f0 :: rest).find? (fun x => x.is_srgb) with _ | g
        · exact absurd (List.find?_eq_none.mp hfind f hf) (by simp [hsrgb])
        · exact ⟨g, hfind⟩
      rcases this with ⟨g, hg⟩
      simp [choose_surface_format, hg]
  · intro hnone
    rcases formats with _ | ⟨f0, rest⟩
    · cases h rfl
    · have : (f0 :: rest).find? (fun x => x.is_srgb) = none := by
        apply List.find?_eq_none.mpr
        intro x hx
        have := List.any_eq_false.mp hnone x hx
        simp [this]
      simp [choose_surface_format, this]

/-- Witness for C7: among `[Bgra8Unorm, Bgra8UnormSrgb]` the chosen format is
the (first) sRGB one, `Bgra8UnormSrgb`. -/
theorem surface_format_preference_witness :
    choose_surface_format [TextureFormat.Bgra8Unorm, TextureFormat.Bgra8UnormSrgb] =
      some TextureFormat.Bgra8UnormSrgb := by
  have h := (surface_format_preference
    [TextureFormat.Bgra8Unorm, TextureFormat.Bgra8UnormSrgb] (by decide)).1
    (by decide)
  rw [h]
  decide

/-! ## Claim C4: frame-acquisition failure handling (lines 220-227) -/

/-- `wgpu::SurfaceError`, the error type of `get_current_texture`. -/
inductive SurfaceError
  | Timeout
  | Outdated
  | Lost
  | OutOfMemory
deriving DecidableEq, Repr

/-- The frame target acquired from the surface (opaque handle). -/
structure SurfaceTexture where
  id : Nat
deriving DecidableEq, Repr

/-- Outcome of one `RedrawRequested` tick with respect to frame acquisition:
either the render pipeline runs on the acquired frame, or the tick is
skipped and the (possibly resized) graphics state is carried forward. -/
inductive RedrawOutcome
  | rendered (gfx : GfxState) (frame : SurfaceTexture)
  | skipped (gfx : GfxState)
deriving DecidableEq, Repr

/-- The frame-acquisition step of the `RedrawRequested` arm (lines 220-227):
`match gfx.surface.get_current_texture()` either yields a frame — in which
case the pipeline proceeds and the graphics state is untouched — or logs a
warning, calls `gfx.resize(gfx.size)` and returns from the closure.  The
result is `Except String _` so that a panicking path, had one existed,
would show up as `Except.error`; the source has none. -/
def redraw_acquire (gfx : GfxState)
    (acquired : Except SurfaceError SurfaceTexture) :
    Except String RedrawOutcome :=
  match acquired with
  | Except.ok frame => Except.ok (RedrawOutcome.rendered gfx frame)
  | Except.error _ => Except.ok (RedrawOutcome.skipped (gfx.resize gfx.size))

/-- The window events dispatched by the event-loop closure
(lines 190-287), with `RedrawRequested` carrying the result the surface
will report for frame acquisition. -/
inductive WindowEvent
  | CloseRequested
  | Resized (size : PhysicalSize)
  | ScaleFactorChanged (inner : PhysicalSize)
  | RedrawRequested (acquired : Except SurfaceError SurfaceTexture)
  | Other
deriving Repr

/-- Whether the event-loop target keeps polling or exits
(`elwt.exit()`). -/
inductive LoopControl
  | continue_poll
  | exit_loop
deriving DecidableEq, Repr

/-- The `match event` dispatch of the event-loop closure (lines 190-287),
restricted to its effect on the graphics state and the loop control:
`CloseRequested` exits (line 191), `Resized` and `ScaleFactorChanged`
resize (lines 192-195), `RedrawRequested` runs the pipeline or — on
acquisition failure — resizes with the stored size and returns early
(lines 220-227); no arm panics, so no arm yields `Except.error`. -/
def handle_window_event (gfx : GfxState) (ev : WindowEvent) :
    Except String (GfxState × LoopControl) :=
  match ev with
  | WindowEvent.CloseRequested => Except.ok (gfx, LoopControl.exit_loop)
  | WindowEvent.Resized size => Except.ok (gfx.resize size, LoopControl.continue_poll)
  | WindowEvent.ScaleFactorChanged inner =>
    Except.ok (gfx.resize inner, LoopControl.continue_poll)
  | WindowEvent.RedrawRequested acquired =>
    match redraw_acquire gfx acquired with
    | Except.ok (RedrawOutcome.rendered g _) => Except.ok (g, LoopControl.continue_poll)
    | Except.ok (RedrawOutcome.skipped g) => Except.ok (g, LoopControl.continue_poll)
    | Except.error e => Except.error e
  | WindowEvent.Other => Except.ok (gfx, LoopControl.continue_poll)

/-- C4: whenever frame acquisition fails, the tick never panics
(the step returns `Except.ok`, not `Except.error`), the render pipeline is
skipped, the surface is reconfigured by calling resize with the last known
stored size, and the event loop keeps polling instead of exiting. -/
theorem acquire_failure_skips_and_reconfigures (gfx : GfxState)
    (err : SurfaceError) :
    redraw_acquire gfx (Except.error err) =
        Except.ok (RedrawOutcome.skipped (gfx.resize gfx.size)) ∧
      handle_window_event gfx (WindowEvent.RedrawRequested (Except.error err)) =
        Except.ok (gfx.resize gfx.size, LoopControl.continue_poll) :=
  ⟨rfl, rfl⟩

/-! ## Claim C5: per-frame ordering (src/main.rs lines 196-285) -/

/-- The externally visible actions of one `RedrawRequested` tick, in the
order the source performs them: egui frame begin/ui/end (lines 202-205),
tessellation (lines 208-209), texture uploads (lines 212-214) and frees
(lines 215-217), frame acquisition (line 220), buffer upload (lines
245-251), the draw call (line 277), submission (line 280) and presentation
(line 281). -/
inductive FrameAction
  | begin_frame
  | run_ui
  | end_frame
  | tessellate
  | update_texture (id : Nat)
  | free_texture (id : Nat)
  | acquire_frame
  | update_buffers
  | render
  | submit
  | present
deriving DecidableEq, Repr

/-- `egui::TexturesDelta`: the texture ids with new data (`set`) and the
texture ids marked freed (`free`) in this frame's output. -/
structure TexturesDelta where
  set : List Nat
  free : List Nat
deriving DecidableEq, Repr

/-- The action trace of one `RedrawRequested` tick, read off the statement
order of the source: uploads for every entry of `textures_delta.set`, then
frees for every entry of `textures_delta.free`, then frame acquisition; if
acquisition succeeds the tick continues with buffer upload, the draw call,
submission and presentation, otherwise it returns early. -/
def frame_trace (delta : TexturesDelta) (acquire_ok : Bool) : List FrameAction :=
  [FrameAction.begin_frame, FrameAction.run_ui, FrameAction.end_frame,
      FrameAction.tessellate] ++
    delta.set.map FrameAction.update_texture ++
    delta.free.map FrameAction.free_texture ++
    [FrameAction.acquire_frame] ++
    (if acquire_ok then
        [FrameAction.update_buffers, FrameAction.render, FrameAction.submit,
          FrameAction.present]
      else [])

/-- Splitting a list at an element that occurs in neither part is
unambiguous: any other split at the same element has the same two parts. -/
theorem split_at_unique {α : Type} {x : α} :
    ∀ (a : List α) {b l1 l2 : List α}, x ∉ a → x ∉ b →
      a ++ x :: b = l1 ++ x :: l2 → a = l1 ∧ b = l2 := by
  intro a
  induction a with
  | nil =>
    intro b l1 l2 _ hb heq
    rcases l1 with _ | ⟨y, l1t⟩
    · simpa using heq
    · exfalso
      have : x = y ∧ b = l1t ++ x :: l2 := by
        constructor
        · exact (List.cons.inj heq).1
        · exact (List.cons.inj heq).2
      exact hb (this.2 ▸ List.mem_append_right l1t (List.mem_cons_self x l2))
  | cons h t ih =>
    intro b l1 l2 ha hb heq
    rcases l1 with _ | ⟨y, l1t⟩
    · exfalso
      have hx : h = x := (List.cons.inj heq).1
      exact ha (hx ▸ List.mem_cons_self h t)
    · have h1 : h = y := (List.cons.inj heq).1
      have h2 : t ++ x :: b = l1t ++ x :: l2 := (List.cons.inj heq).2
      have ht : x ∉ t := fun hxt => ha (List.mem_cons_of_mem h hxt)
      rcases ih ht hb h2 with ⟨e1, e2⟩
      exact ⟨by rw [h1, e1], e2⟩

/-- The draw call never occurs in a tick whose frame acquisition failed. -/
theorem render_not_mem_failed_trace (delta : TexturesDelta) :
    FrameAction.render ∉ frame_trace delta false := by
  simp [frame_trace]

/-- C5: in every tick, all texture uploads (for ids in
`textures_delta.set`) and all texture releases (for ids in
`textures_delta.free`) occur strictly before the draw call: whenever the
tick's trace splits as `l1 ++ render :: l2`, every upload and free action
lies in the prefix `l1`. -/
theorem textures_settled_before_render (delta : TexturesDelta)
    (acquire_ok : Bool) (l1 l2 : List FrameAction)
    (hsplit : frame_trace delta acquire_ok = l1 ++ FrameAction.render :: l2) :
    (∀ id ∈ delta.set, FrameAction.update_texture id ∈ l1) ∧
      (∀ id ∈ delta.free, FrameAction.free_texture id ∈ l1) := by
  cases acquire_ok
  · exfalso
    exact render_not_mem_failed_trace delta
      (hsplit ▸ List.mem_append_right l1 (List.mem_cons_self _ l2))
  · have htr : frame_trace delta true =
        ([FrameAction.begin_frame, FrameAction.run_ui, FrameAction.end_frame,
            FrameAction.tessellate] ++
          delta.set.map FrameAction.update_texture ++
          delta.free.map FrameAction.free_texture ++
          [FrameAction.acquire_frame, FrameAction.update_buffers]) ++
          FrameAction.render :: [FrameAction.submit, FrameAction.present] := by
      simp [frame_trace]
    have hnotA : FrameAction.render ∉
        ([FrameAction.begin_frame, FrameAction.run_ui, FrameAction.end_frame,
            FrameAction.tessellate] ++
          delta.set.map FrameAction.update_texture ++
          delta.free.map FrameAction.free_texture ++
          [FrameAction.acquire_frame, FrameAction.update_buffers]) := by
      simp
    have hnotB : FrameAction.render ∉
        [FrameAction.submit, FrameAction.present] := by
      decide
    have heq := split_at_unique _ hnotA hnotB (htr.symm.trans hsplit)
    constructor
    · intro id hid
      rw [← heq.1]
      exact List.mem_append_left _ (List.mem_append_left _
        (List.mem_append_right _ (List.mem_map_of_mem _ hid)))
    · intro id hid
      rw [← heq.1]
      exact List.mem_append_left _
        (List.mem_append_right _ (List.mem_map_of_mem _ hid))

/-- Witness for C5: with one uploaded texture (id 7) and one freed texture
(id 3), the trace splits at the draw call and both texture actions sit in
the prefix. -/
theorem textures_settled_before_render_witness :
    FrameAction.update_texture 7 ∈
        ([FrameAction.begin_frame, FrameAction.run_ui, FrameAction.end_frame,
          FrameAction.tessellate, FrameAction.update_texture 7,
          FrameAction.free_texture 3, FrameAction.acquire_frame,
          FrameAction.update_buffers] : List FrameAction) ∧
      FrameAction.free_texture 3 ∈
        ([FrameAction.begin_frame, FrameAction.run_ui, FrameAction.end_frame,
          FrameAction.tessellate, FrameAction.update_texture 7,
          FrameAction.free_texture 3, FrameAction.acquire_frame,
          FrameAction.update_buffers] : List FrameAction) := by
  have h := textures_settled_before_render { set := [7], free := [3] } true
    [FrameAction.begin_frame, FrameAction.run_ui, FrameAction.end_frame,
      FrameAction.tessellate, FrameAction.update_texture 7,
      FrameAction.free_texture 3, FrameAction.acquire_frame,
      FrameAction.update_buffers]
    [FrameAction.submit, FrameAction.present] (by rfl)
  exact ⟨h.1 7 (by decide), h.2 3 (by decide)⟩

/-! ## Claim C8: CJK font installation (`install_cjk_fonts`, lines 298-348) -/

/-- `std::path::Path::file_name` composed with `to_str`: the component after
the last `/` separator, `none` when empty. -/
def file_name (path : String) : Option String :=
  match (path.splitOn "/").getLast? with
  | none => none
  | some n => if n = "" then none else some n

/-- `std::path::Path::file_stem` composed with `to_str`: the file name with
its extension (the part after the last dot) removed; a leading-dot name with
no further dot has no extension and is its own stem. -/
def file_stem (path : String) : Option String :=
  match file_name path with
  | none => none
  | some n =>
    let parts := n.splitOn "."
    match parts with
    | [] => none
    | [s] => some s
    | first :: _ =>
      if first = "" ∧ parts.length = 2 then some n
      else some (String.intercalate "." parts.dropLast)

/-- `egui::FontDefinitions`: named font byte blobs plus the per-family
priority lists.  Byte contents are opaque (`List Nat`). -/
structure FontDefinitions where
  font_data : List (String × List Nat)
  proportional : List String
  monospace : List String
deriving DecidableEq, Repr

/-- `egui::FontDefinitions::default()`: egui's built-in fonts (byte blobs
abstracted away; only names and order matter to this model). -/
def FontDefinitions.default : FontDefinitions :=
  { font_data :=
      [("Hack", []), ("Ubuntu-Light", []), ("NotoEmoji-Regular", []),
        ("emoji-icon-font", [])]
    proportional := ["Ubuntu-Light", "NotoEmoji-Regular", "emoji-icon-font"]
    monospace := ["Hack", "Ubuntu-Light", "NotoEmoji-Regular", "emoji-icon-font"] }

/-- The font-relevant state of `egui::Context`: the font configuration that
`ctx.set_fonts` replaces. -/
structure Context where
  fonts : FontDefinitions
deriving DecidableEq, Repr

/-- A fresh `egui::Context::default()`. -/
def Context.default : Context := { fonts := FontDefinitions.default }

/-- The Windows candidate font path list (lines 305-314). -/
def windows_font_candidates : List String :=
  ["C:/Windows/Fonts/msyh.ttc", "C:/Windows/Fonts/msyh.ttf",
    "C:/Windows/Fonts/msyhbd.ttc", "C:/Windows/Fonts/simhei.ttf",
    "C:/Windows/Fonts/simsun.ttc", "C:/Windows/Fonts/Deng.ttf",
    "C:/Windows/Fonts/msjh.ttc", "C:/Windows/Fonts/NsimSun.ttc"]

/-- `install_cjk_fonts` (lines 299-348).  `read` models `std::fs::read`
(`none` = read error).  The loop takes the first candidate that reads
successfully, inserts it under key `cjk-<stem>` (stem falls back to `"cjk"`)
and prepends the key to both family lists; only then is `ctx.set_fonts`
called.  The returned flag records whether `set_fonts` was called. -/
def install_cjk_fonts (read : String → Option (List Nat))
    (candidates : List String) (ctx : Context) : Context × Bool :=
  let fonts := FontDefinitions.default
  match candidates.findSome?
      (fun path => (read path).map (fun bytes => (path, bytes))) with
  | none => (ctx, false)
  | some (path, bytes) =>
    let stem := (file_stem path).getD "cjk"
    let key := "cjk-" ++ stem
    let fonts' :=
      { fonts with
        font_data := fonts.font_data ++ [(key, bytes)]
        proportional := key :: fonts.proportional
        monospace := key :: fonts.monospace }
    ({ ctx with fonts := fonts' }, true)

/-- C8: when no candidate font file can be read, font installation is a
silent no-op — `set_fonts` is never called (flag `false`) and the context's
font configuration is exactly what it was. -/
theorem missing_fonts_silent_noop (read : String → Option (List Nat))
    (candidates : List String) (ctx : Context)
    (h : ∀ p ∈ candidates, read p = none) :
    install_cjk_fonts read candidates ctx = (ctx, false) := by
  have hnone : candidates.findSome?
      (fun path => (read path).map (fun bytes => (path, bytes))) = none := by
    induction candidates with
    | nil => rfl
    | cons p rest ih =>
      have hp : read p = none := h p (List.mem_cons_self p rest)
      simp only [List.findSome?_cons, hp, Option.map_none]
      exact ih (fun q hq => h q (List.mem_cons_of_mem p hq))
  simp [install_cjk_fonts, hnone]

/-- Witness for C8: on a filesystem where every read fails, installing over
the Windows candidate list leaves a fresh context untouched. -/
theorem missing_fonts_silent_noop_witness :
    install_cjk_fonts (fun _ => none) windows_font_candidates Context.default =
      (Context.default, false) :=
  missing_fonts_silent_noop (fun _ => none) windows_font_candidates
    Context.default (fun _ _ => rfl)

/-! ## Claim C9: the configured dimensions are always positive -/

/-- Capabilities of the example swapchain used by witnesses. -/
def exampleCaps : SurfaceCapabilities :=
  { formats := [TextureFormat.Bgra8UnormSrgb]
    present_modes := [PresentMode.Fifo]
    alpha_modes := [CompositeAlphaMode.Opaque] }

/-- The state `GfxState::new` builds from a 0×600 window (minimised width)
over `exampleCaps`: the configuration clamps the width to 1, the `size`
field keeps the raw 0. -/
def exampleInitState : GfxState :=
  { surface_config :=
      { usage := renderAttachment
        format := TextureFormat.Bgra8UnormSrgb
        width := 1
        height := 600
        present_mode := PresentMode.Fifo
        alpha_mode := CompositeAlphaMode.Opaque
        view_formats := []
        desired_maximum_frame_latency := 2 }
    size := { width := 0, height := 600 } }

/-- C9: the stored configuration's width and height are strictly positive:
initialization clamps each window dimension to at least 1, resize preserves
positivity (it writes only positive dimensions), and — as the claim notes —
the separately stored `size` field is *not* clamped at initialization. -/
theorem config_dimensions_always_positive :
    (∀ (size : PhysicalSize) (caps : SurfaceCapabilities) (g : GfxState),
        GfxState.new size caps = some g →
        0 < g.surface_config.width ∧ 0 < g.surface_config.height) ∧
      (∀ (s : GfxState) (new_size : PhysicalSize),
          0 < s.surface_config.width → 0 < s.surface_config.height →
          0 < (s.resize new_size).surface_config.width ∧
            0 < (s.resize new_size).surface_config.height) ∧
      (∀ (size : PhysicalSize) (caps : SurfaceCapabilities) (g : GfxState),
          GfxState.new size caps = some g → g.size = size) := by
  have hnew : ∀ (size : PhysicalSize) (caps : SurfaceCapabilities) (g : GfxState),
      GfxState.new size caps = some g →
      g.surface_config.width = max size.width 1 ∧
        g.surface_config.height = max size.height 1 ∧ g.size = size := by
    intro size caps g hg
    unfold GfxState.new at hg
    rcases hf : choose_surface_format caps.formats with _ | sf <;>
        simp only [hf] at hg
    · cases hg
    rcases hp : choose_present_mode caps.present_modes with _ | pm <;>
        simp only [hp] at hg
    · cases hg
    rcases ha : caps.alpha_modes.head? with _ | a0 <;>
        simp only [ha] at hg
    · cases hg
    injection hg with hg
    subst hg
    exact ⟨rfl, rfl, rfl⟩
  refine ⟨?_, ?_, ?_⟩
  · intro size caps g hg
    rcases hnew size caps g hg with ⟨hw, hh, _⟩
    rw [hw, hh]
    exact ⟨Nat.lt_of_lt_of_le Nat.one_pos (Nat.le_max_right _ _),
      Nat.lt_of_lt_of_le Nat.one_pos (Nat.le_max_right _ _)⟩
  · intro s new_size hw hh
    unfold GfxState.resize
    by_cases hp : 0 < new_size.width ∧ 0 < new_size.height
    · simp only [if_pos hp]
      exact hp
    · simp only [if_neg hp]
      exact ⟨hw, hh⟩
  · intro size caps g hg
    exact (hnew size caps g hg).2.2

/-- Witness for C9: from a 0×600 window over the example capabilities,
initialization produces a configuration with positive dimensions while the
stored size keeps the raw zero width. -/
theorem config_dimensions_always_positive_witness :
    (0 < exampleInitState.surface_config.width ∧
        0 < exampleInitState.surface_config.height) ∧
      exampleInitState.size = { width := 0, height := 600 } :=
  ⟨config_dimensions_always_positive.1 { width := 0, height := 600 }
      exampleCaps exampleInitState rfl,
    config_dimensions_always_positive.2.2 { width := 0, height := 600 }
      exampleCaps exampleInitState rfl⟩

/-! ## Claim C1: the displayed counter value -/

/-- The operations executed since the most recent reset: a reset discards
everything before it, any other operation is appended.  Used to state the
spec's "number of increments minus decrements since the most recent
reset". -/
def trackReset (acc : List Op) (op : Op) : List Op :=
  match op with
  | Op.reset => []
  | o => acc ++ [o]

/-- The suffix of the operation sequence after the most recent reset
(the whole sequence when no reset occurred). -/
def sinceLastReset (ops : List Op) : List Op :=
  ops.foldl trackReset []

/-- Number of increments minus number of decrements in a list of
operations, as an unbounded integer. -/
def netOf (l : List Op) : Int :=
  (l.countP (fun o => o == Op.inc) : Int) - (l.countP (fun o => o == Op.dec) : Int)

/-- Modelled from the spec: the value the spec says is displayed — the
number of increments minus the number of decrements performed since the
most recent reset (or since the start), as an unbounded integer. -/
def specDisplayedCount (ops : List Op) : Int :=
  netOf (sinceLastReset ops)

theorem wrap32_add_wrap32 (x k : Int) : wrap32 (wrap32 x + k) = wrap32 (x + k) := by
  unfold wrap32
  omega

theorem wrap32_zero : wrap32 0 = 0 := by decide

theorem netOf_append_inc (l : List Op) : netOf (l ++ [Op.inc]) = netOf l + 1 := by
  simp [netOf, List.countP_append, List.countP_cons]
  omega

theorem netOf_append_dec (l : List Op) : netOf (l ++ [Op.dec]) = netOf l - 1 := by
  simp [netOf, List.countP_append, List.countP_cons]
  omega

theorem netOf_cons_inc (l : List Op) : netOf (Op.inc :: l) = netOf l + 1 := by
  simp [netOf, List.countP_cons]
  omega

theorem click_foldl_eq (ops : List Op) :
    ∀ (app : CounterApp) (acc : List Op),
      app.count = wrap32 (netOf acc) →
      (ops.foldl CounterApp.click app).count =
        wrap32 (netOf (ops.foldl trackReset acc)) := by
  induction ops with
  | nil => intro app acc h; simpa using h
  | cons op rest ih =>
    intro app acc h
    simp only [List.foldl_cons]
    apply ih
    cases op
    · show wrap32 (app.count + 1) = wrap32 (netOf (acc ++ [Op.inc]))
      rw [netOf_append_inc, h, wrap32_add_wrap32]
    · show wrap32 (app.count - 1) = wrap32 (netOf (acc ++ [Op.dec]))
      have := wrap32_add_wrap32 (netOf acc) (-1)
      rw [netOf_append_dec, h]
      simpa [sub_eq_add_neg] using this
    · show (0 : Int) = wrap32 (netOf ([] : List Op))
      simp [netOf, wrap32_zero]

/-- C1 (amended): the counter is an `i32`, so the displayed value is the
32-bit signed wraparound of the number of increments minus decrements since
the most recent reset — equal to that difference exactly while it stays in
`[-2^31, 2^31)`. -/
theorem displayed_count_eq_wrapped_net (ops : List Op) :
    displayedCount ops = wrap32 (specDisplayedCount ops) := by
  have h := click_foldl_eq ops CounterApp.default []
    (by simp [CounterApp.default, netOf, wrap32_zero])
  simpa [displayedCount, specDisplayedCount, sinceLastReset] using h

theorem trackReset_foldl_replicate_inc (n : Nat) :
    ∀ (acc : List Op),
      (List.replicate n Op.inc).foldl trackReset acc = acc ++ List.replicate n Op.inc := by
  induction n with
  | zero => intro acc; simp
  | succ n ih =>
    intro acc
    rw [List.replicate_succ, List.foldl_cons]
    show (List.replicate n Op.inc).foldl trackReset (acc ++ [Op.inc]) = _
    rw [ih (acc ++ [Op.inc]), List.append_assoc, List.singleton_append]

theorem netOf_replicate_inc (n : Nat) :
    netOf (List.replicate n Op.inc) = (n : Int) := by
  induction n with
  | zero => simp [netOf]
  | succ n ih =>
    rw [List.replicate_succ, netOf_cons_inc, ih]
    push_cast
    ring

/-- Counterexample for C1 as stated: after 2^31 consecutive increments (no
reset), the displayed counter is the wrapped value -2^31, not the
increment-minus-decrement total 2^31 the claim prescribes. -/
theorem displayed_count_not_unbounded_net :
    displayedCount (List.replicate 2147483648 Op.inc) ≠
      specDisplayedCount (List.replicate 2147483648 Op.inc) := by
  have hspec : specDisplayedCount (List.replicate 2147483648 Op.inc) =
      (2147483648 : Int) := by
    unfold specDisplayedCount sinceLastReset
    rw [trackReset_foldl_replicate_inc 2147483648 []]
    rw [List.nil_append]
    exact netOf_replicate_inc 2147483648
  rw [displayed_count_eq_wrapped_net, hspec]
  decide

end LearnEgui
